import Mathlib

/-!
Verification of the postproxy-mcp publishing core: status reconciliation,
idempotency-key derivation, draft-override detection, target resolution,
retry orchestration and the HTTP error taxonomy, embedded shallowly from
the TypeScript sources.

Conventions of the embedding:
* JavaScript strings are Lean `String`s (well-formed sequences of Unicode
  scalar values); where JavaScript semantics depend on UTF-16 code units
  (default array sort, `.length`, `.substring`) the embedding converts
  through an explicit UTF-16 encoding.
* Absent (`undefined`/`null`) fields are `Option`s.
* Thrown `MCPError`s are `Except.error` values.
* The upstream HTTP API is an oracle: handler embeddings take the data the
  collaborator would return as explicit inputs and additionally return the
  list of upstream calls they issue, so frame properties ("no create-post
  call is issued") are statements about that trace.
-/

/-! ## Error taxonomy (src/utils/errors.ts) -/

/-- The `MCPError` carried by every failure: stable code plus message.
The optional `details` payload of the source class is untyped (`any`) and
not inspected by any of the verified logic, so it is omitted. -/
structure MCPError where
  code : String
  message : String
deriving Repr, DecidableEq

/-- The values of the `ErrorCodes` object in src/utils/errors.ts, in source
order.  This is the complete closed set of codes the implementation defines. -/
def errorCodes : List String :=
  ["AUTH_MISSING", "AUTH_INVALID", "VALIDATION_ERROR", "TARGET_NOT_FOUND",
   "PUBLISH_FAILED", "PLATFORM_ERROR", "API_ERROR"]

/-- Embedding of `createError(code, message)` from src/utils/errors.ts. -/
def createError (code : String) (message : String) : MCPError :=
  ⟨code, message⟩

/-! ## Data model (src/types/index.ts, as consumed by the tools) -/

/-- One per-platform outcome row of a post, current field shape
(`platform` / `error`), as read by `handlePostStatus` and
`handleHistoryList`.  The opaque `insights` metrics field is never
inspected by the reconciler and is omitted. -/
structure PlatformOutcome where
  platform : String
  status : String
  url : Option String := none
  postId : Option String := none
  error : Option String := none
  attemptedAt : Option String := none
deriving Repr, DecidableEq

/-- The post record returned by `GET /posts/{id}`, restricted to the fields
`handlePostStatus` reads: `status`, the `draft` flag (may be absent and may
diverge from `status`) and the platform-outcome array (may be absent). -/
structure PostDetails where
  status : String
  draft : Option Bool := none
  platforms : Option (List PlatformOutcome) := none
deriving Repr, DecidableEq

/-- A post record as consumed by `handleHistoryList`: like `PostDetails`
plus the content, which may arrive under `body` or `content`. -/
structure Post where
  id : String := ""
  status : String
  draft : Option Bool := none
  platforms : Option (List PlatformOutcome) := none
  body : Option String := none
  content : Option String := none
  createdAt : String := ""
deriving Repr, DecidableEq

/-! ## Status reconciliation -/

/-- The normalized per-platform rows built at the top of `handlePostStatus`
(tools/post.ts with draft support): `platform.error || null` turns an empty
error string (falsy in JavaScript) into an absent one, every other field is
passed through. -/
def normalizeOutcome (p : PlatformOutcome) : PlatformOutcome :=
  { p with
    error := match p.error with
             | some "" => none
             | e => e }

/-- The `platforms` array `handlePostStatus` works on: empty when the field
is absent, otherwise the normalized rows. -/
def postStatusPlatforms (pd : PostDetails) : List PlatformOutcome :=
  (pd.platforms.getD []).map normalizeOutcome

/-- The overall-status decision chain of `handlePostStatus` (tools/post.ts,
draft-aware version): draft first, then scheduled/processing, then the
aggregation over platform outcomes for `processed`, with `"pending"` as the
initial (fail-open) value of `overallStatus`. -/
def postStatusOverall (pd : PostDetails) : String :=
  let platforms := postStatusPlatforms pd
  if pd.status = "draft" ∨ pd.draft = some true then "draft"
  else if pd.status = "scheduled" then "pending"
  else if pd.status = "processing" then "processing"
  else if pd.status = "processed" then
    if platforms.length = 0 then "pending"
    else
      let allPublished := platforms.all (fun p => p.status == "published")
      let allFailed := platforms.all (fun p => p.status == "failed")
      let anyPending := platforms.any (fun p => p.status == "pending" || p.status == "processing")
      if anyPending then "processing"
      else if allPublished then "complete"
      else if allFailed then "failed"
      else "complete"
  else if pd.status = "pending" then "pending"
  else "pending"

/-- The overall-status chain of `handleHistoryList` (src/tools/history.ts).
Identical decision table, but the initial (fail-open) value of
`overallStatus` is the string `"unknown"`, and the platform rows are read
directly (`post.platforms && post.platforms.length > 0`). -/
def historyListOverall (post : Post) : String :=
  if post.status = "draft" ∨ post.draft = some true then "draft"
  else if post.status = "scheduled" then "pending"
  else if post.status = "processing" then "processing"
  else if post.status = "processed" then
    match post.platforms with
    | some (p :: ps) =>
      let platforms := p :: ps
      let allPublished := platforms.all (fun q => q.status == "published")
      let allFailed := platforms.all (fun q => q.status == "failed")
      let anyPending := platforms.any (fun q => q.status == "pending" || q.status == "processing")
      if anyPending then "processing"
      else if allPublished then "complete"
      else if allFailed then "failed"
      else "complete"
    | _ => "pending"
  else if post.status = "pending" then "pending"
  else "unknown"

/-! Sanity checks of the reconcilers against the spec's examples. -/

example :
    postStatusOverall ⟨"processed", none,
      some [⟨"twitter", "published", none, none, none, none⟩,
            ⟨"facebook", "published", none, none, none, none⟩]⟩ = "complete" := by decide

example :
    postStatusOverall ⟨"processed", none,
      some [⟨"twitter", "failed", none, none, none, none⟩,
            ⟨"facebook", "failed", none, none, none, none⟩]⟩ = "failed" := by decide

example :
    postStatusOverall ⟨"processed", none,
      some [⟨"twitter", "published", none, none, none, none⟩,
            ⟨"facebook", "pending", none, none, none, none⟩]⟩ = "processing" := by decide

example :
    postStatusOverall ⟨"processed", none, some []⟩ = "pending" := by decide

/-! ## Helper lemmas for the reconciliation proofs -/

theorem status_normalizeOutcome (p : PlatformOutcome) :
    (normalizeOutcome p).status = p.status := rfl

theorem mem_postStatusPlatforms {pd : PostDetails} {q : PlatformOutcome}
    (h : q ∈ postStatusPlatforms pd) :
    ∃ p ∈ pd.platforms.getD [], q.status = p.status := by
  rcases List.mem_map.mp h with ⟨p, hp, rfl⟩
  exact ⟨p, hp, rfl⟩

theorem postStatusPlatforms_eq_nil {pd : PostDetails} :
    postStatusPlatforms pd = [] ↔ pd.platforms.getD [] = [] := by
  simp [postStatusPlatforms]

/-- C1 counterexample: a post whose `status` is `"processed"`, whose
platform outcomes are mixed (one `published`, one `failed`, none pending or
processing) but whose `draft` flag is `true` reconciles to `"draft"`, not
to `"complete"`: the draft rule fires first. -/
theorem processed_mixed_draft_flag_counterexample :
    postStatusOverall ⟨"processed", some true,
      some [⟨"twitter", "published", none, none, none, none⟩,
            ⟨"facebook", "failed", none, none, none, none⟩]⟩ = "draft" ∧
    ("draft" : String) ≠ "complete" := by
  constructor
  · decide
  · decide

/-- C1 (amended): for every post record whose `status` is `"processed"`,
whose `draft` flag is not `true`, and whose platform-outcome list is
non-empty, contains at least one `published` and at least one `failed`
outcome and none in `pending` or `processing`, `handlePostStatus`
reconciles the overall status to `"complete"`. -/
theorem processed_mixed_is_complete (pd : PostDetails)
    (hst : pd.status = "processed")
    (hd : pd.draft ≠ some true)
    (hne : pd.platforms.getD [] ≠ [])
    (hpub : ∃ p ∈ pd.platforms.getD [], p.status = "published")
    (hfail : ∃ p ∈ pd.platforms.getD [], p.status = "failed")
    (hnp : ∀ p ∈ pd.platforms.getD [], p.status ≠ "pending" ∧ p.status ≠ "processing") :
    postStatusOverall pd = "complete" := by
  have hdraft : ¬ (pd.status = "draft" ∨ pd.draft = some true) := by
    rintro (h | h)
    · rw [hst] at h; exact absurd h (by decide)
    · exact hd h
  have hlen : ¬ (postStatusPlatforms pd).length = 0 := by
    rw [List.length_eq_zero, postStatusPlatforms_eq_nil]
    exact hne
  have hany : (postStatusPlatforms pd).any
      (fun p => p.status == "pending" || p.status == "processing") = false := by
    rw [List.any_eq_false]
    intro q hq
    rcases mem_postStatusPlatforms hq with ⟨p, hp, hqp⟩
    rcases hnp p hp with ⟨h1, h2⟩
    simp [hqp, h1, h2]
  have hallpub : (postStatusPlatforms pd).all (fun p => p.status == "published") = false := by
    rw [List.all_eq_false]
    rcases hfail with ⟨p, hp, hps⟩
    refine ⟨normalizeOutcome p, List.mem_map_of_mem _ hp, ?_⟩
    simp [status_normalizeOutcome, hps]
  have hallfail : (postStatusPlatforms pd).all (fun p => p.status == "failed") = false := by
    rw [List.all_eq_false]
    rcases hpub with ⟨p, hp, hps⟩
    refine ⟨normalizeOutcome p, List.mem_map_of_mem _ hp, ?_⟩
    simp [status_normalizeOutcome, hps]
  rw [postStatusOverall]
  rw [if_neg hdraft, hst]
  simp only [reduceIte, String.reduceEq]
  rw [if_neg hlen, if_neg (by simp [hany]), if_neg (by simp [hallpub]),
    if_neg (by simp [hallfail])]

/-- C1 amended-theorem witness at a concrete mixed post. -/
theorem processed_mixed_is_complete_witness :
    postStatusOverall ⟨"processed", some false,
      some [⟨"twitter", "published", none, none, none, none⟩,
            ⟨"facebook", "failed", none, none, none, none⟩]⟩ = "complete" :=
  processed_mixed_is_complete _ rfl (by decide) (by decide)
    ⟨⟨"twitter", "published", none, none, none, none⟩, by decide, rfl⟩
    ⟨⟨"facebook", "failed", none, none, none, none⟩, by decide, rfl⟩
    (by decide)

/-- C2 counterexample: a post whose `status` is outside the recognized
vocabulary (here `"archived"`) and whose `draft` flag is not `true` makes
`handleHistoryList` report overall status `"unknown"`, not the `"pending"`
the claim states for both operations. -/
theorem history_fallback_counterexample :
    historyListOverall ⟨"", "archived", none, none, none, none, ""⟩ = "unknown" ∧
    ("unknown" : String) ≠ "pending" := by
  constructor
  · decide
  · decide

/-- C2 (amended): for every post record whose `status` is none of `draft`,
`scheduled`, `processing`, `processed`, `pending` and whose `draft` flag is
not `true`, the reconciliation never throws and falls through to the
initial value of `overallStatus`: `"pending"` in `handlePostStatus` but
`"unknown"` in `handleHistoryList`. -/
theorem unrecognized_status_fallback :
    (∀ pd : PostDetails,
      pd.status ∉ ["draft", "scheduled", "processing", "processed", "pending"] →
      pd.draft ≠ some true →
      postStatusOverall pd = "pending") ∧
    (∀ post : Post,
      post.status ∉ ["draft", "scheduled", "processing", "processed", "pending"] →
      post.draft ≠ some true →
      historyListOverall post = "unknown") := by
  constructor
  · intro pd hst hd
    simp only [List.mem_cons, List.mem_singleton, not_or] at hst
    obtain ⟨h1, h2, h3, h4, h5, -⟩ := hst
    rw [postStatusOverall]
    rw [if_neg (by rintro (h | h); exacts [h1 h, hd h]),
      if_neg h2, if_neg h3, if_neg h4, if_neg h5]
  · intro post hst hd
    simp only [List.mem_cons, List.mem_singleton, not_or] at hst
    obtain ⟨h1, h2, h3, h4, h5, -⟩ := hst
    rw [historyListOverall]
    rw [if_neg (by rintro (h | h); exacts [h1 h, hd h]),
      if_neg h2, if_neg h3, if_neg h4, if_neg h5]

/-- C2 amended-theorem witness at the concrete status `"archived"`. -/
theorem unrecognized_status_fallback_witness :
    postStatusOverall ⟨"archived", none, none⟩ = "pending" ∧
    historyListOverall ⟨"", "archived", none, none, none, none, ""⟩ = "unknown" :=
  ⟨unrecognized_status_fallback.1 ⟨"archived", none, none⟩ (by decide) (by decide),
   unrecognized_status_fallback.2 ⟨"", "archived", none, none, none, none, ""⟩
     (by decide) (by decide)⟩

/-- C3: a post whose `status` is `"draft"` or whose `draft` flag is `true`
reconciles to overall status `"draft"` in both `handlePostStatus` and
`handleHistoryList`, whatever its platform-outcome list holds: the draft
rule is the first branch of the decision chain. -/
theorem draft_rule_takes_precedence :
    (∀ pd : PostDetails,
      pd.status = "draft" ∨ pd.draft = some true →
      postStatusOverall pd = "draft") ∧
    (∀ post : Post,
      post.status = "draft" ∨ post.draft = some true →
      historyListOverall post = "draft") := by
  constructor
  · intro pd h
    rw [postStatusOverall, if_pos h]
  · intro post h
    rw [historyListOverall, if_pos h]

/-- C3 witness: a processed-looking record with two published outcomes but
`draft = true` still reconciles to `"draft"` in both operations. -/
theorem draft_rule_takes_precedence_witness :
    postStatusOverall ⟨"processed", some true,
      some [⟨"twitter", "published", none, none, none, none⟩]⟩ = "draft" ∧
    historyListOverall ⟨"", "processed", some true,
      some [⟨"twitter", "published", none, none, none, none⟩], none, none, ""⟩ = "draft" :=
  ⟨draft_rule_takes_precedence.1 _ (Or.inr rfl),
   draft_rule_takes_precedence.2 _ (Or.inr rfl)⟩

/-! ## Draft-override detection (handlePostPublish, draft-aware post tools) -/

/-- The upstream response of `POST /posts`, restricted to the fields the
publish handler reads back. -/
structure CreatePostResponse where
  id : String
  status : String
  draft : Option Bool := none
  scheduledAt : Option String := none
  createdAt : String := ""
deriving Repr, DecidableEq

/-- The `draftIgnored` computation of the draft-aware `handlePostPublish`:
`wasDraftRequested = args.draft === true`, `isDraftInResponse =
Boolean(response.draft) === true` (truthy only for a present `true`),
`wasProcessedImmediately = response.status === "processed" &&
wasDraftRequested`, and `draftIgnored = wasDraftRequested &&
(!isDraftInResponse || wasProcessedImmediately)`. -/
def draftIgnored (requestedDraft : Option Bool) (response : CreatePostResponse) : Bool :=
  let wasDraftRequested := requestedDraft == some true
  let isDraftInResponse := response.draft == some true
  let wasProcessedImmediately := response.status == "processed" && wasDraftRequested
  wasDraftRequested && (!isDraftInResponse || wasProcessedImmediately)

/-- The warning text attached to the (still successful) publish result when
the draft request was ignored. -/
def draftIgnoredWarning : String :=
  "Warning: Draft was requested but API returned draft: false. The post may have been processed immediately. This can happen if the API does not support drafts with media or other parameters."

/-- The publish result object assembled by the draft-aware
`handlePostPublish` after a successful create call: the upstream fields,
plus the warning exactly when `draftIgnored` holds. -/
structure PublishResponseData where
  jobId : String
  status : String
  draft : Option Bool
  scheduledAt : Option String
  createdAt : String
  warning : Option String
deriving Repr, DecidableEq

/-- Assembly of the successful publish result (`responseData` in the
source): always the upstream fields, `warning` present iff `draftIgnored`. -/
def buildPublishResponseData (requestedDraft : Option Bool)
    (response : CreatePostResponse) : PublishResponseData :=
  { jobId := response.id
    status := response.status
    draft := response.draft
    scheduledAt := response.scheduledAt
    createdAt := response.createdAt
    warning := if draftIgnored requestedDraft response then some draftIgnoredWarning else none }

/-- C6: the publish result carries a warning iff the caller requested
`draft = true` and either the response's `draft` field is not `true` or the
response status is `"processed"` (with draft still requested) — the
formula of the claim.  In particular a request with `draft = true` answered
by `{status: "processed", draft: false}` gets a warning on the otherwise
successful result, and one answered by `draft = true` with a status other
than `"processed"` gets none. -/
theorem publish_warning_iff_draft_overridden :
    ∀ (requestedDraft : Option Bool) (response : CreatePostResponse),
      (buildPublishResponseData requestedDraft response).warning.isSome = true ↔
        (requestedDraft = some true ∧
          (response.draft ≠ some true ∨
            (response.status = "processed" ∧ requestedDraft = some true))) := by
  intro requestedDraft response
  rw [buildPublishResponseData]
  by_cases hp : response.status = "processed" <;>
    rcases requestedDraft with - | - | - <;>
      rcases hd : response.draft with - | - | - <;>
        simp [draftIgnored, hp, hd]

/-! ## HTTP client error mapping (src/api/client.ts and the multipart
upload variant) -/

/-- A JavaScript exception as observed by the `catch` blocks of the client:
its `name`, `message`, and the `code` property when the exception is
already an `MCPError` (absent otherwise). -/
structure JsException where
  name : String
  message : String
  code : Option String := none
deriving Repr, DecidableEq

/-- Timeout bound `AbortSignal.timeout(30000)` on every ordinary JSON call. -/
def requestTimeoutMs : Nat := 30000

/-- Timeout bound `AbortSignal.timeout(60000)` on multipart file uploads. -/
def uploadTimeoutMs : Nat := 60000

/-- The HTTP-status to error-code mapping of `request`: 401 is
`AUTH_INVALID`, 404 is `TARGET_NOT_FOUND`, any other 4xx is
`VALIDATION_ERROR`, everything else keeps `API_ERROR`. -/
def httpStatusToCode (status : Nat) : String :=
  if status = 401 then "AUTH_INVALID"
  else if status = 404 then "TARGET_NOT_FOUND"
  else if 400 ≤ status ∧ status < 500 then "VALIDATION_ERROR"
  else "API_ERROR"

/-- The `catch` block of `PostProxyClient.request`: a `TimeoutError` maps to
`createError(API_ERROR, "Request timeout - API did not respond within 30
seconds")`; an `AUTH_INVALID` `MCPError` is rethrown; everything else runs
through `formatError(error, API_ERROR)`, which keeps an existing `MCPError`
and wraps anything else in `API_ERROR`. -/
def requestCatch (e : JsException) : MCPError :=
  if e.name = "TimeoutError" then
    createError "API_ERROR" "Request timeout - API did not respond within 30 seconds"
  else if e.code = some "AUTH_INVALID" then
    ⟨"AUTH_INVALID", e.message⟩
  else
    match e.code with
    | some c => ⟨c, e.message⟩
    | none => ⟨"API_ERROR", e.message⟩

/-- The `catch` block of `PostProxyClient.createPostWithFiles` (multipart
upload): a `TimeoutError` maps to `createError(API_ERROR, "Request timeout -
API did not respond within 60 seconds")`; any exception with a `code`
property is rethrown; everything else is wrapped in `API_ERROR`. -/
def createPostWithFilesCatch (e : JsException) : MCPError :=
  if e.name = "TimeoutError" then
    createError "API_ERROR" "Request timeout - API did not respond within 60 seconds"
  else
    match e.code with
    | some c => ⟨c, e.message⟩
    | none => ⟨"API_ERROR", e.message⟩

/-- C9 counterexample: an elapsed 30-second timeout on an ordinary JSON call
is reported with code `"API_ERROR"` — the same code any 5xx/transport
failure gets — and no `"API_TIMEOUT"` code exists in the taxonomy, so the
timeout is not reported with a distinct ApiTimeout code. -/
theorem timeout_code_counterexample :
    (requestCatch ⟨"TimeoutError", "The operation was aborted due to timeout", none⟩).code
      = "API_ERROR" ∧
    httpStatusToCode 500 = "API_ERROR" ∧
    "API_TIMEOUT" ∉ errorCodes := by
  refine ⟨rfl, by decide, by decide⟩

/-- C9 (amended): both timeout bounds are as stated (30 s for ordinary JSON
calls, 60 s for multipart uploads), but an elapsed timeout is reported with
the shared code `API_ERROR` — the taxonomy defines no ApiTimeout code — and
is distinguished from other HTTP failures only by its fixed "Request
timeout" message. -/
theorem timeout_reported_as_api_error :
    requestTimeoutMs = 30000 ∧ uploadTimeoutMs = 60000 ∧
    (∀ (msg : String) (c : Option String),
      requestCatch ⟨"TimeoutError", msg, c⟩ =
        ⟨"API_ERROR", "Request timeout - API did not respond within 30 seconds"⟩) ∧
    (∀ (msg : String) (c : Option String),
      createPostWithFilesCatch ⟨"TimeoutError", msg, c⟩ =
        ⟨"API_ERROR", "Request timeout - API did not respond within 60 seconds"⟩) := by
  refine ⟨rfl, rfl, fun msg c => rfl, fun msg c => rfl⟩

/-! ## JavaScript string primitives used by the idempotency-key deriver -/

/-- UTF-16 encoding of one Unicode scalar value, as a list of code units:
BMP characters are one unit, supplementary characters a surrogate pair. -/
def utf16Char (c : Char) : List Nat :=
  let n := c.toNat
  if n < 65536 then [n]
  else [55296 + (n - 65536) / 1024, 56320 + (n - 65536) % 1024]

/-- The UTF-16 code-unit sequence of a string — what JavaScript string
operations (`.length`, comparison, `.substring`) actually see. -/
def utf16Units (s : String) : List Nat :=
  s.data.flatMap utf16Char

/-- The code points `String.prototype.trim` strips: WhiteSpace
(TAB VT FF SP NBSP ZWNBSP and the Unicode Zs class) plus LineTerminator
(LF CR LS PS). -/
def jsWhitespaceCodes : List Nat :=
  [9, 10, 11, 12, 13, 32, 160, 5760, 8192, 8193, 8194, 8195, 8196, 8197,
   8198, 8199, 8200, 8201, 8202, 8232, 8233, 8239, 8287, 12288, 65279]

def isJsWhitespace (c : Char) : Bool :=
  jsWhitespaceCodes.contains c.toNat

/-- Embedding of `content.trim()`: strip leading and trailing JavaScript whitespace. -/
def jsTrim (s : String) : String :=
  String.mk (((s.data.dropWhile isJsWhitespace).reverse.dropWhile isJsWhitespace).reverse)

/-- Lexicographic (shortlex within equal prefixes) order on code-unit
sequences: the order `<` induces on JavaScript strings. -/
def lexLe : List Nat → List Nat → Bool
  | [], _ => true
  | _ :: _, [] => false
  | a :: as, b :: bs => if a < b then true else if b < a then false else lexLe as bs

/-- The default `Array.prototype.sort` comparison on strings: by UTF-16
code units. -/
def jsStringLe (a b : String) : Bool :=
  lexLe (utf16Units a) (utf16Units b)

instance : DecidableRel (fun a b : String => jsStringLe a b = true) :=
  fun _ _ => inferInstance

/-- Embedding of `[...targets].sort()`: since the code-unit order is total, transitive
and antisymmetric (proved below), the sorted copy is the unique sorted
permutation of the input, so any sorting algorithm is a faithful model;
we use insertion sort, which both computes and has the needed lemmas. -/
def jsSortStrings (l : List String) : List String :=
  List.insertionSort (fun a b => jsStringLe a b = true) l

/-- UTF-8 encoding of one Unicode scalar value (what
`crypto.createHash(...).update(string)` hashes). -/
def utf8Char (c : Char) : List Nat :=
  let n := c.toNat
  if n < 128 then [n]
  else if n < 2048 then [192 + n / 64, 128 + n % 64]
  else if n < 65536 then [224 + n / 4096, 128 + n / 64 % 64, 128 + n % 64]
  else [240 + n / 262144, 128 + n / 4096 % 64, 128 + n / 64 % 64, 128 + n % 64]

/-- UTF-8 byte sequence of a string. -/
def utf8Bytes (s : String) : List Nat :=
  s.data.flatMap utf8Char

/-- Lowercase hexadecimal digit for `n % 16`. -/
def hexDigitChar (n : Nat) : Char :=
  "0123456789abcdef".data.getD (n % 16) '0'

/-- The `JSON.stringify` escaping of one character: quote and backslash are
backslash-escaped, the named control escapes are used for BS TAB LF FF CR,
the remaining control characters become `\u00XX`, and every other
character (ASCII or not) is emitted verbatim. -/
def jsonEscapeChar (c : Char) : List Char :=
  if c = '"' then ['\\', '"']
  else if c = '\\' then ['\\', '\\']
  else if c.toNat = 8 then ['\\', 'b']
  else if c.toNat = 9 then ['\\', 't']
  else if c.toNat = 10 then ['\\', 'n']
  else if c.toNat = 12 then ['\\', 'f']
  else if c.toNat = 13 then ['\\', 'r']
  else if c.toNat < 32 then
    ['\\', 'u', '0', '0', hexDigitChar (c.toNat / 16), hexDigitChar c.toNat]
  else [c]

/-- Rendering `JSON.stringify` gives a string value. -/
def jsonQuote (s : String) : String :=
  String.mk ('"' :: (s.data.flatMap jsonEscapeChar ++ ['"']))

/-- Rendering `JSON.stringify` gives an array of strings. -/
def jsonStringArray (l : List String) : String :=
  "[" ++ String.intercalate "," (l.map jsonQuote) ++ "]"

/-- The canonical serialization hashed by `generateIdempotencyKey`:
`JSON.stringify({content, targets, schedule})` with that fixed field
order and no whitespace. -/
def idempotencyPayload (content : String) (targets : List String)
    (schedule : String) : String :=
  "\x7b\"content\":" ++ jsonQuote content ++
    ",\"targets\":" ++ jsonStringArray targets ++
    ",\"schedule\":" ++ jsonQuote schedule ++ "\x7d"

/-! ## SHA-256 (FIPS 180-4), modelling Node's
`createHash("sha256").update(data).digest("hex")` on byte sequences.
All words are `Nat`s kept below `2 ^ 32` by explicit reduction. -/

/-- Reduce modulo `2 ^ 32`. -/
def w32 (n : Nat) : Nat := n % 4294967296

/-- Right-rotation of a 32-bit word by `n` places. -/
def rotr32 (n w : Nat) : Nat :=
  w32 (w / 2 ^ n + w % 2 ^ n * 2 ^ (32 - n))

/-- The `Ch` function of FIPS 180-4: `(e ∧ f) ⊕ (¬e ∧ g)`. -/
def shaCh (e f g : Nat) : Nat :=
  Nat.xor (Nat.land e f) (Nat.land (4294967295 - w32 e) g)

/-- The `Maj` function: `(a ∧ b) ⊕ (a ∧ c) ⊕ (b ∧ c)`. -/
def shaMaj (a b c : Nat) : Nat :=
  Nat.xor (Nat.xor (Nat.land a b) (Nat.land a c)) (Nat.land b c)

def bigSigma0 (a : Nat) : Nat :=
  Nat.xor (Nat.xor (rotr32 2 a) (rotr32 13 a)) (rotr32 22 a)

def bigSigma1 (e : Nat) : Nat :=
  Nat.xor (Nat.xor (rotr32 6 e) (rotr32 11 e)) (rotr32 25 e)

def smallSigma0 (x : Nat) : Nat :=
  Nat.xor (Nat.xor (rotr32 7 x) (rotr32 18 x)) (x / 2 ^ 3)

def smallSigma1 (x : Nat) : Nat :=
  Nat.xor (Nat.xor (rotr32 17 x) (rotr32 19 x)) (x / 2 ^ 10)

/-- The 64 round constants. -/
def shaK : List Nat :=
  [1116352408, 1899447441, 3049323471, 3921009573, 961987163, 1508970993, 2453635748, 2870763221,
   3624381080, 310598401, 607225278, 1426881987, 1925078388, 2162078206, 2614888103, 3248222580,
   3835390401, 4022224774, 264347078, 604807628, 770255983, 1249150122, 1555081692, 1996064986,
   2554220882, 2821834349, 2952996808, 3210313671, 3336571891, 3584528711, 113926993, 338241895,
   666307205, 773529912, 1294757372, 1396182291, 1695183700, 1986661051, 2177026350, 2456956037,
   2730485921, 2820302411, 3259730800, 3345764771, 3516065817, 3600352804, 4094571909, 275423344,
   430227734, 506948616, 659060556, 883997877, 958139571, 1322822218, 1537002063, 1747873779,
   1955562222, 2024104815, 2227730452, 2361852424, 2428436474, 2756734187, 3204031479, 3329325298]

/-- The eight working words of the hash state. -/
structure Hash8 where
  h0 : Nat
  h1 : Nat
  h2 : Nat
  h3 : Nat
  h4 : Nat
  h5 : Nat
  h6 : Nat
  h7 : Nat
deriving Repr, DecidableEq

/-- The initial hash value. -/
def shaInit : Hash8 :=
  ⟨1779033703, 3144134277, 1013904242, 2773480762,
   1359893119, 2600822924, 528734635, 1541459225⟩

/-- Merkle–Damgård padding: `0x80`, zeros to 56 mod 64, then the bit
length as eight big-endian bytes. -/
def padBytes (msg : List Nat) : List Nat :=
  let n := msg.length
  let padZeros := (120 - (n + 1) % 64) % 64
  let bitLen := 8 * n
  msg ++ 128 :: (List.replicate padZeros 0 ++
    [bitLen / 2 ^ 56 % 256, bitLen / 2 ^ 48 % 256, bitLen / 2 ^ 40 % 256,
     bitLen / 2 ^ 32 % 256, bitLen / 2 ^ 24 % 256, bitLen / 2 ^ 16 % 256,
     bitLen / 2 ^ 8 % 256, bitLen % 256])

/-- Big-endian grouping of bytes into 32-bit words. -/
def bytesToWords : List Nat → List Nat
  | b0 :: b1 :: b2 :: b3 :: rest =>
      (b0 * 16777216 + b1 * 65536 + b2 * 256 + b3) :: bytesToWords rest
  | _ => []

/-- Split a word list into 16-word blocks (`fuel` bounds the recursion and
is instantiated with the list length). -/
def toBlocks : Nat → List Nat → List (List Nat)
  | 0, _ => []
  | _, [] => []
  | fuel + 1, ws => ws.take 16 :: toBlocks fuel (ws.drop 16)

/-- Message-schedule extension, carrying the schedule in reverse (most
recent word first), so `w[i-2]`, `w[i-7]`, `w[i-15]`, `w[i-16]` are at
positions 1, 6, 14, 15. -/
def extendSchedule : Nat → List Nat → List Nat
  | 0, rws => rws
  | k + 1, rws =>
      extendSchedule k
        (w32 (smallSigma1 (rws.getD 1 0) + rws.getD 6 0 +
          smallSigma0 (rws.getD 14 0) + rws.getD 15 0) :: rws)

/-- The 64-word message schedule of one block. -/
def messageSchedule (block : List Nat) : List Nat :=
  (extendSchedule 48 block.reverse).reverse

/-- One compression round. -/
def shaRound (st : Hash8) (kw : Nat × Nat) : Hash8 :=
  let t1 := st.h7 + bigSigma1 st.h4 + shaCh st.h4 st.h5 st.h6 + kw.1 + kw.2
  let t2 := bigSigma0 st.h0 + shaMaj st.h0 st.h1 st.h2
  ⟨w32 (t1 + t2), st.h0, st.h1, st.h2, w32 (st.h3 + t1), st.h4, st.h5, st.h6⟩

/-- Compress one 16-word block into the running hash. -/
def processBlock (st : Hash8) (block : List Nat) : Hash8 :=
  let r := (shaK.zip (messageSchedule block)).foldl shaRound st
  ⟨w32 (st.h0 + r.h0), w32 (st.h1 + r.h1), w32 (st.h2 + r.h2), w32 (st.h3 + r.h3),
   w32 (st.h4 + r.h4), w32 (st.h5 + r.h5), w32 (st.h6 + r.h6), w32 (st.h7 + r.h7)⟩

/-- SHA-256 of a byte sequence, as the final eight-word state. -/
def sha256Hash (msg : List Nat) : Hash8 :=
  let words := bytesToWords (padBytes msg)
  (toBlocks words.length words).foldl processBlock shaInit

/-- The eight lowercase hex digits of one 32-bit word. -/
def wordHex (w : Nat) : List Char :=
  [hexDigitChar (w / 268435456), hexDigitChar (w / 16777216),
   hexDigitChar (w / 1048576), hexDigitChar (w / 65536),
   hexDigitChar (w / 4096), hexDigitChar (w / 256),
   hexDigitChar (w / 16), hexDigitChar w]

/-- Embedding of `digest("hex")`: the 64-character lowercase hex rendering. -/
def sha256Hex (msg : List Nat) : String :=
  let h := sha256Hash msg
  String.mk (wordHex h.h0 ++ wordHex h.h1 ++ wordHex h.h2 ++ wordHex h.h3 ++
    wordHex h.h4 ++ wordHex h.h5 ++ wordHex h.h6 ++ wordHex h.h7)

/-- Embedding of `generateIdempotencyKey` (src/utils/idempotency.ts): trim the content,
sort a copy of the targets, default the schedule to the empty string
(`schedule || ""` — the two falsy string cases both yield `""`, which for
strings coincides with `getD ""`), serialize, and hash. -/
def generateIdempotencyKey (content : String) (targets : List String)
    (schedule : Option String) : String :=
  let normalizedContent := jsTrim content
  let normalizedTargets := jsSortStrings targets
  let normalizedSchedule := schedule.getD ""
  sha256Hex (utf8Bytes (idempotencyPayload normalizedContent normalizedTargets normalizedSchedule))

/-! ## Shape of the derived key -/

theorem hexDigitChar_mem (n : Nat) : hexDigitChar n ∈ "0123456789abcdef".data := by
  have h : n % 16 < 16 := Nat.mod_lt _ (by decide)
  unfold hexDigitChar
  generalize n % 16 = m at h
  interval_cases m <;> decide

theorem wordHex_mem (w : Nat) {c : Char} (h : c ∈ wordHex w) :
    c ∈ "0123456789abcdef".data := by
  simp only [wordHex, List.mem_cons, List.not_mem_nil, or_false] at h
  rcases h with h | h | h | h | h | h | h | h <;>
    (subst h; exact hexDigitChar_mem _)

theorem sha256Hex_length (m : List Nat) : (sha256Hex m).length = 64 := by
  simp [sha256Hex, String.length, wordHex]

theorem sha256Hex_mem (m : List Nat) :
    ∀ c ∈ (sha256Hex m).data, c ∈ "0123456789abcdef".data := by
  intro c hc
  simp only [sha256Hex, String.data, List.mem_append] at hc
  rcases hc with ((((((h | h) | h) | h) | h) | h) | h) | h <;> exact wordHex_mem _ h

/-- C4: for every content, target list and optional schedule, the derived
idempotency key is the lowercase-hex SHA-256 digest of the canonical JSON
serialization `{content: trimmed, targets: sorted, schedule: schedule or
""}`; the key is 64 characters, all lowercase hex digits; and on the
concrete input `("Hello", ["p1"], no schedule)` it equals the SHA-256 hex
digest of `{"content":"Hello","targets":["p1"],"schedule":""}`. -/
theorem idempotency_key_is_canonical_sha256 :
    (∀ (c : String) (ts : List String) (s : Option String),
      generateIdempotencyKey c ts s =
        sha256Hex (utf8Bytes (idempotencyPayload (jsTrim c) (jsSortStrings ts) (s.getD ""))) ∧
      (generateIdempotencyKey c ts s).length = 64 ∧
      ∀ ch ∈ (generateIdempotencyKey c ts s).data, ch ∈ "0123456789abcdef".data) ∧
    generateIdempotencyKey "Hello" ["p1"] none =
      "aea0601aff570567ba2ba0357f5a16e1aed5fd15f5912d3a14209acff3edd9fd" := by
  refine ⟨fun c ts s => ⟨rfl, sha256Hex_length _, sha256Hex_mem _⟩, by decide⟩

/-- C4 witness: the universally quantified digit-membership hypothesis
discharged at a concrete character of the concrete key. -/
theorem idempotency_key_is_canonical_sha256_witness :
    'a' ∈ "0123456789abcdef".data :=
  (idempotency_key_is_canonical_sha256.1 "Hello" ["p1"] none).2.2 'a' (by decide)

/-! ## The code-unit order is a total, transitive, antisymmetric order,
so the sorted copy of the targets is permutation-invariant -/

theorem lexLe_cons (a b : Nat) (as bs : List Nat) :
    lexLe (a :: as) (b :: bs) =
      if a < b then true else if b < a then false else lexLe as bs := rfl

theorem lexLe_total : ∀ x y : List Nat, lexLe x y = true ∨ lexLe y x = true := by
  intro x
  induction x with
  | nil => intro y; exact Or.inl rfl
  | cons a as ih =>
    intro y
    cases y with
    | nil => exact Or.inr rfl
    | cons b bs =>
      rcases Nat.lt_trichotomy a b with h | h | h
      · left; rw [lexLe_cons, if_pos h]
      · subst h
        rcases ih bs with h' | h'
        · left; rw [lexLe_cons, if_neg (Nat.lt_irrefl a), if_neg (Nat.lt_irrefl a)]; exact h'
        · right; rw [lexLe_cons, if_neg (Nat.lt_irrefl a), if_neg (Nat.lt_irrefl a)]; exact h'
      · right; rw [lexLe_cons, if_pos h]

theorem lexLe_antisymm : ∀ x y : List Nat,
    lexLe x y = true → lexLe y x = true → x = y := by
  intro x
  induction x with
  | nil =>
    intro y _ hyx
    cases y with
    | nil => rfl
    | cons b bs => exact absurd hyx (by rw [show lexLe (b :: bs) [] = false from rfl]; decide)
  | cons a as ih =>
    intro y hxy hyx
    cases y with
    | nil => exact absurd hxy (by rw [show lexLe (a :: as) [] = false from rfl]; decide)
    | cons b bs =>
      rcases Nat.lt_trichotomy a b with h | h | h
      · rw [lexLe_cons, if_neg (Nat.lt_asymm h), if_pos h] at hyx
        exact absurd hyx (by decide)
      · subst h
        rw [lexLe_cons, if_neg (Nat.lt_irrefl a), if_neg (Nat.lt_irrefl a)] at hxy hyx
        rw [ih bs hxy hyx]
      · rw [lexLe_cons, if_neg (Nat.lt_asymm h), if_pos h] at hxy
        exact absurd hxy (by decide)

theorem lexLe_trans : ∀ x y z : List Nat,
    lexLe x y = true → lexLe y z = true → lexLe x z = true := by
  intro x
  induction x with
  | nil => intro y z _ _; rfl
  | cons a as ih =>
    intro y z hxy hyz
    cases y with
    | nil => exact absurd hxy (by rw [show lexLe (a :: as) [] = false from rfl]; decide)
    | cons b bs =>
      cases z with
      | nil => exact absurd hyz (by rw [show lexLe (b :: bs) [] = false from rfl]; decide)
      | cons c cs =>
        rw [lexLe_cons] at hxy hyz ⊢
        rcases Nat.lt_trichotomy a b with hab | hab | hab
        · rcases Nat.lt_trichotomy b c with hbc | hbc | hbc
          · rw [if_pos (Nat.lt_trans hab hbc)]
          · subst hbc; rw [if_pos hab]
          · rw [if_neg (Nat.lt_asymm hbc), if_pos hbc] at hyz
            exact absurd hyz (by decide)
        · subst hab
          rw [if_neg (Nat.lt_irrefl a), if_neg (Nat.lt_irrefl a)] at hxy
          rcases Nat.lt_trichotomy a c with hac | hac | hac
          · rw [if_pos hac]
          · subst hac
            rw [if_neg (Nat.lt_irrefl a), if_neg (Nat.lt_irrefl a)] at hyz ⊢
            exact ih bs cs hxy hyz
          · rw [if_neg (Nat.lt_asymm hac), if_pos hac] at hyz
            exact absurd hyz (by decide)
        · rw [if_neg (Nat.lt_asymm hab), if_pos hab] at hxy
          exact absurd hxy (by decide)

theorem char_valid_nat (c : Char) :
    c.toNat < 55296 ∨ (57343 < c.toNat ∧ c.toNat < 1114112) := c.valid

theorem utf16Char_ne_nil (c : Char) : utf16Char c ≠ [] := by
  by_cases hc : c.toNat < 65536 <;> simp [utf16Char, hc]

theorem utf16_flatMap_inj : ∀ l₁ l₂ : List Char,
    l₁.flatMap utf16Char = l₂.flatMap utf16Char → l₁ = l₂ := by
  intro l₁
  induction l₁ with
  | nil =>
    intro l₂ h
    cases l₂ with
    | nil => rfl
    | cons d ds =>
      rw [List.flatMap_nil, List.flatMap_cons] at h
      exact absurd (List.append_eq_nil.mp h.symm).1 (utf16Char_ne_nil d)
  | cons c cs ih =>
    intro l₂ h
    cases l₂ with
    | nil =>
      rw [List.flatMap_nil, List.flatMap_cons] at h
      exact absurd (List.append_eq_nil.mp h).1 (utf16Char_ne_nil c)
    | cons d ds =>
      rw [List.flatMap_cons, List.flatMap_cons] at h
      have hcv := char_valid_nat c
      have hdv := char_valid_nat d
      by_cases hc : c.toNat < 65536 <;> by_cases hd : d.toNat < 65536
      · simp only [utf16Char, hc, hd, if_true, ite_true, List.cons_append,
          List.nil_append, List.cons.injEq] at h
        obtain ⟨h1, h2⟩ := h
        rw [Char.ext (UInt32.ext h1), ih ds h2]
      · simp only [utf16Char, hc, hd, if_true, ite_true, ite_false,
          List.cons_append, List.nil_append, List.cons.injEq] at h
        have h1 := h.1
        have hq : (d.toNat - 65536) / 1024 < 1024 :=
          (Nat.div_lt_iff_lt_mul (by decide)).mpr (by omega)
        omega
      · simp only [utf16Char, hc, hd, if_true, ite_true, ite_false,
          List.cons_append, List.nil_append, List.cons.injEq] at h
        have h1 := h.1
        have hq : (c.toNat - 65536) / 1024 < 1024 :=
          (Nat.div_lt_iff_lt_mul (by decide)).mpr (by omega)
        omega
      · simp only [utf16Char, hc, hd, ite_false, List.cons_append,
          List.nil_append, List.cons.injEq] at h
        obtain ⟨h1, h2, h3⟩ := h
        have d1 := Nat.div_add_mod (c.toNat - 65536) 1024
        have d2 := Nat.div_add_mod (d.toNat - 65536) 1024
        rw [Char.ext (UInt32.ext (by omega : c.toNat = d.toNat)), ih ds h3]

theorem utf16Units_inj {a b : String} (h : utf16Units a = utf16Units b) : a = b :=
  String.ext (utf16_flatMap_inj a.data b.data h)

instance : IsTotal String (fun a b => jsStringLe a b = true) :=
  ⟨fun a b => lexLe_total (utf16Units a) (utf16Units b)⟩

instance : IsTrans String (fun a b => jsStringLe a b = true) :=
  ⟨fun _ _ _ hab hbc => lexLe_trans _ _ _ hab hbc⟩

instance : IsAntisymm String (fun a b => jsStringLe a b = true) :=
  ⟨fun _ _ hab hba => utf16Units_inj (lexLe_antisymm _ _ hab hba)⟩

theorem jsSortStrings_eq_of_perm {l₁ l₂ : List String} (h : l₁.Perm l₂) :
    jsSortStrings l₁ = jsSortStrings l₂ := by
  apply List.eq_of_perm_of_sorted (r := fun a b => jsStringLe a b = true)
  · exact (List.perm_insertionSort _ l₁).trans (h.trans (List.perm_insertionSort _ l₂).symm)
  · exact List.sorted_insertionSort _ l₁
  · exact List.sorted_insertionSort _ l₂

/-- C5: the idempotency key is invariant under permutation of the target
list (the sort normalizes any ordering of the same targets), and the
derivation is deterministic — equal inputs give equal keys.  The source
sorts a copy (`[...targets].sort()`), and the embedding is a pure
function, so the input list is not mutated. -/
theorem idempotency_key_permutation_invariant :
    (∀ (c : String) (s : Option String) (ts₁ ts₂ : List String),
      ts₁.Perm ts₂ →
      generateIdempotencyKey c ts₁ s = generateIdempotencyKey c ts₂ s) ∧
    (∀ (c : String) (ts : List String) (s : Option String),
      generateIdempotencyKey c ts s = generateIdempotencyKey c ts s) := by
  constructor
  · intro c s ts₁ ts₂ h
    unfold generateIdempotencyKey
    rw [jsSortStrings_eq_of_perm h]
  · intro c ts s
    rfl

/-- C5 witness: swapping a two-element target list leaves the key
unchanged. -/
theorem idempotency_key_permutation_invariant_witness :
    generateIdempotencyKey "note" ["b", "a"] none =
      generateIdempotencyKey "note" ["a", "b"] none :=
  idempotency_key_permutation_invariant.1 "note" none ["b", "a"] ["a", "b"]
    (List.Perm.swap "a" "b" [])

/-! ## The publish pipeline (tools/post.ts, target-resolving version)

`handlePostPublish` validates, optionally short-circuits into a
confirmation summary, fetches the profile list, resolves every target to a
platform name, derives the idempotency key and issues the create call.
The upstream collaborator is an oracle (`PublishEnv`), and the returned
trace lists the upstream calls made, in order.  The create call itself is
modelled as succeeding with the oracle's response; its `catch`-and-wrap
into `PUBLISH_FAILED` lies beyond the oracle boundary and is not needed by
any claim. -/

/-- One entry of the `targets` array produced by `handleProfilesList`. -/
structure Profile where
  id : String
  name : String := ""
  platform : String
  profileGroupId : String := ""
deriving Repr, DecidableEq

/-- An upstream call issued by a tool handler. -/
structure CreatePostCall where
  content : String
  profiles : List String
  schedule : Option String
  media : Option (List String)
  idempotencyKey : String
deriving Repr, DecidableEq

inductive ApiCall where
  | profilesFetch
  | getPost (jobId : String)
  | createPost (call : CreatePostCall)
deriving Repr, DecidableEq

/-- The arguments of `post.publish` (target-resolving version). -/
structure PublishArgs where
  content : String
  targets : List String
  schedule : Option String := none
  media : Option (List String) := none
  idempotencyKey : Option String := none
  requireConfirmation : Option Bool := none
deriving Repr, DecidableEq

/-- The data the upstream collaborator would supply during a publish call:
the flattened profile list, the create-post response, and the message the
schema validator would render for an invalid input (an opaque rendering of
the zod error, only ever concatenated into the `VALIDATION_ERROR`
message). -/
structure PublishEnv where
  profiles : List Profile
  createResponse : CreatePostResponse
  zodMessage : String := ""
deriving Repr, DecidableEq

/-- Embedding of `PostPublishSchema.parse` (utils/validation.ts, URL-media version):
non-empty content and targets, schedule a parseable date containing `"T"`,
media all URLs.  Date parsing (`new Date(...)`) and URL parsing
(`new URL(...)`) are host-environment functions and enter as oracles. -/
def publishSchemaOk (dateOk urlOk : String → Bool) (args : PublishArgs) : Bool :=
  decide (1 ≤ (utf16Units args.content).length) &&
  decide (1 ≤ args.targets.length) &&
  (match args.schedule with
   | none => true
   | some d => dateOk d && d.contains 'T') &&
  (match args.media with
   | none => true
   | some ms => ms.all urlOk)

/-- First `n` UTF-16 code units of a character list, as characters
(`substring(0, n)`).  When the cut would split a surrogate pair —
JavaScript would keep a lone surrogate, which a Lean `String` cannot
carry — the pair is dropped; no claim exercises that corner. -/
def utf16Take : Nat → List Char → List Char
  | _, [] => []
  | n, c :: cs =>
      let w := (utf16Char c).length
      if w ≤ n then c :: utf16Take (n - w) cs else []

/-- Embedding of `args.content.substring(0, 100) + (args.content.length > 100 ? "..." :
"")` — both the cut and the length test count UTF-16 code units. -/
def contentPreview (s : String) : String :=
  String.mk (utf16Take 100 s.data) ++ (if 100 < (utf16Units s).length then "..." else "")

/-- Lookup `targetsMap.get(id)` after the `for`-loop of `Map.set` calls: the last
profile with the given id wins. -/
def lastProfileWithId (profiles : List Profile) (tid : String) : Option Profile :=
  profiles.reverse.find? (fun p => p.id == tid)

/-- The resolution loop: substitute each target id by its profile's
platform, failing with `TARGET_NOT_FOUND` at the first unknown id. -/
def resolveTargets (profiles : List Profile) : List String → Except MCPError (List String)
  | [] => .ok []
  | t :: ts =>
      match lastProfileWithId profiles t with
      | none => .error (createError "TARGET_NOT_FOUND" ("Target " ++ t ++ " not found"))
      | some p =>
          match resolveTargets profiles ts with
          | .error e => .error e
          | .ok rest => .ok (p.platform :: rest)

/-- Embedding of `args.idempotency_key || generateIdempotencyKey(...)`: an absent or
empty (falsy) caller key is replaced by the derived one, computed over the
raw target ids. -/
def chosenIdempotencyKey (args : PublishArgs) : String :=
  match args.idempotencyKey with
  | some k => if k = "" then generateIdempotencyKey args.content args.targets args.schedule else k
  | none => generateIdempotencyKey args.content args.targets args.schedule

inductive PublishResult where
  | confirmationSummary (targets : List String) (preview : String)
      (mediaCount : Nat) (scheduleTime : Option String)
  | created (jobId : String) (status : String) (createdAt : String)
deriving Repr, DecidableEq

/-- The `post.publish` pipeline with its upstream-call trace. -/
def handlePostPublish (env : PublishEnv) (dateOk urlOk : String → Bool)
    (args : PublishArgs) : Except MCPError PublishResult × List ApiCall :=
  if publishSchemaOk dateOk urlOk args then
    if args.requireConfirmation = some true then
      (.ok (.confirmationSummary args.targets (contentPreview args.content)
        ((args.media.getD []).length) args.schedule), [])
    else
      match resolveTargets env.profiles args.targets with
      | .error e => (.error e, [.profilesFetch])
      | .ok platformNames =>
          (.ok (.created env.createResponse.id env.createResponse.status
            env.createResponse.createdAt),
           [.profilesFetch,
            .createPost ⟨args.content, platformNames, args.schedule, args.media,
              chosenIdempotencyKey args⟩])
  else
    (.error (createError "VALIDATION_ERROR" ("Invalid input: " ++ env.zodMessage)), [])

/-! ## The retry pipeline (tools/post.ts `handlePostRetry`) -/

/-- A per-platform outcome row in the legacy upstream shape read by this
version of the post tools: `network` / `error_reason` field names.  Only
the fields the retry path consumes are kept. -/
structure LegacyOutcome where
  network : String
  status : String
deriving Repr, DecidableEq

/-- The `GET /posts/{id}` record as consumed by the retry path: content,
status, nullable `scheduled_at`, and the legacy outcome rows. -/
structure LegacyPostDetails where
  content : String := ""
  status : String
  scheduledAt : Option String := none
  platforms : Option (List LegacyOutcome) := none
deriving Repr, DecidableEq

/-- The per-platform rows `handlePostStatus` (legacy-shape version) hands
to the retry logic: `platform` renamed from `network`, status passed
through. -/
structure StatusPlatform where
  platform : String
  status : String
deriving Repr, DecidableEq

def retryStatusPlatforms (pd : LegacyPostDetails) : List StatusPlatform :=
  (pd.platforms.getD []).map (fun p => ⟨p.network, p.status⟩)

structure RetryArgs where
  jobId : String
  platforms : Option (List String) := none
deriving Repr, DecidableEq

structure RetryEnv where
  post : LegacyPostDetails
  profiles : List Profile
  createResponse : CreatePostResponse
deriving Repr, DecidableEq

structure RetryResult where
  jobId : String
  retriedPlatforms : List String
  originalJobId : String
deriving Repr, DecidableEq

/-- The failed-outcome selection of `handlePostRetry`: outcomes with status
`"failed"`, intersected with the caller's platform filter when that filter
is present and non-empty (`args.platforms && args.platforms.length > 0`). -/
def retryFailedPlatforms (env : RetryEnv) (args : RetryArgs) : List StatusPlatform :=
  let failed := (retryStatusPlatforms env.post).filter (fun p => p.status == "failed")
  match args.platforms with
  | some (q :: qs) => failed.filter (fun p => (q :: qs).contains p.platform)
  | _ => failed

/-- Embedding of `postDetails.scheduled_at || undefined`: `null` and the empty string
are both falsy. -/
def scheduleOrUndefined (s : Option String) : Option String :=
  match s with
  | some "" => none
  | x => x

/-- The `post.retry` pipeline with its upstream-call trace: status fetch,
failed-platform selection, detail re-fetch, profile fetch, reverse
platform→profile-id lookup, fresh idempotency key, create call. -/
def handlePostRetry (env : RetryEnv) (args : RetryArgs) :
    Except MCPError RetryResult × List ApiCall :=
  if args.jobId = "" then
    (.error (createError "VALIDATION_ERROR" "job_id is required"), [])
  else
    let failedPlatforms := retryFailedPlatforms env args
    if failedPlatforms.length = 0 then
      (.error (createError "VALIDATION_ERROR" "No failed platforms to retry"),
       [.getPost args.jobId])
    else
      let failedNames := failedPlatforms.map (fun p => p.platform)
      let targetsToRetry := failedNames.flatMap
        (fun nm => ((env.profiles.filter (fun p => p.platform == nm)).map (fun p => p.id)))
      if targetsToRetry.length = 0 then
        (.error (createError "VALIDATION_ERROR" "No profiles found for failed platforms"),
         [.getPost args.jobId, .getPost args.jobId, .profilesFetch])
      else
        let platformNames := targetsToRetry.filterMap
          (fun tid => (lastProfileWithId env.profiles tid).map (fun p => p.platform))
        let newKey := generateIdempotencyKey env.post.content targetsToRetry
          (scheduleOrUndefined env.post.scheduledAt)
        (.ok ⟨env.createResponse.id, failedNames, args.jobId⟩,
         [.getPost args.jobId, .getPost args.jobId, .profilesFetch,
          .createPost ⟨env.post.content, platformNames,
            scheduleOrUndefined env.post.scheduledAt, some [], newKey⟩])

/-! ## Resolution lemmas -/

theorem resolveTargets_ok_of_all_found (profiles : List Profile) :
    ∀ ts : List String, (∀ t ∈ ts, (lastProfileWithId profiles t).isSome) →
      resolveTargets profiles ts =
        .ok (ts.map (fun t =>
          ((lastProfileWithId profiles t).map (fun p => p.platform)).getD "")) := by
  intro ts
  induction ts with
  | nil => intro _; rfl
  | cons t ts ih =>
    intro h
    obtain ⟨p, hp⟩ := Option.isSome_iff_exists.mp (h t (List.mem_cons_self t ts))
    rw [resolveTargets, hp, ih (fun u hu => h u (List.mem_cons_of_mem t hu))]
    simp [hp]

theorem resolveTargets_error_of_missing (profiles : List Profile) :
    ∀ ts : List String, (∃ t ∈ ts, lastProfileWithId profiles t = none) →
      ∃ t ∈ ts, resolveTargets profiles ts =
        .error (createError "TARGET_NOT_FOUND" ("Target " ++ t ++ " not found")) := by
  intro ts
  induction ts with
  | nil => rintro ⟨t, ht, -⟩; exact absurd ht (List.not_mem_nil t)
  | cons t ts ih =>
    rintro ⟨u, hu, hnone⟩
    cases hl : lastProfileWithId profiles t with
    | none =>
      exact ⟨t, List.mem_cons_self t ts, by rw [resolveTargets, hl]⟩
    | some p =>
      have hut : u ∈ ts := by
        rcases List.mem_cons.mp hu with rfl | h
        · rw [hl] at hnone; exact absurd hnone (by simp)
        · exact h
      obtain ⟨v, hv, herr⟩ := ih ⟨u, hut, hnone⟩
      exact ⟨v, List.mem_cons_of_mem t hv, by rw [resolveTargets, hl, herr]⟩

/-- C7 counterexample: with one known profile `p1` on platform `twitter`,
publishing to the bare platform name `"twitter"` — a recognized platform
name, not a profile id — fails the whole call with `TARGET_NOT_FOUND`
instead of passing the name through unchanged. -/
theorem bare_platform_name_counterexample :
    handlePostPublish
      ⟨[⟨"p1", "Main", "twitter", "g1"⟩], ⟨"j2", "pending", none, none, ""⟩, ""⟩
      (fun _ => true) (fun _ => true)
      ⟨"hi", ["twitter"], none, none, none, none⟩ =
      (.error ⟨"TARGET_NOT_FOUND", "Target twitter not found"⟩, [.profilesFetch]) ∧
    "twitter" ∈ ([⟨"p1", "Main", "twitter", "g1"⟩] : List Profile).map (fun p => p.platform) := by
  exact ⟨rfl, by decide⟩

/-- C7 (amended): in a publish call that passes input validation and is not
a confirmation dry-run, every target must match a known profile id and is
substituted by that profile's platform name; when all targets match, one
create call with the substituted names is issued; when any target matches
no profile id — bare platform names included — the whole call fails with
`TARGET_NOT_FOUND` after only the profile fetch, so no create-post call is
issued and no partial publish happens. -/
theorem publish_targets_all_or_nothing :
    ∀ (env : PublishEnv) (dateOk urlOk : String → Bool) (args : PublishArgs),
      publishSchemaOk dateOk urlOk args = true →
      args.requireConfirmation ≠ some true →
      ((∀ t ∈ args.targets, (lastProfileWithId env.profiles t).isSome) →
        handlePostPublish env dateOk urlOk args =
          (.ok (.created env.createResponse.id env.createResponse.status
            env.createResponse.createdAt),
           [.profilesFetch,
            .createPost ⟨args.content,
              args.targets.map (fun t =>
                ((lastProfileWithId env.profiles t).map (fun p => p.platform)).getD ""),
              args.schedule, args.media, chosenIdempotencyKey args⟩])) ∧
      ((∃ t ∈ args.targets, lastProfileWithId env.profiles t = none) →
        ∃ t ∈ args.targets,
          handlePostPublish env dateOk urlOk args =
            (.error (createError "TARGET_NOT_FOUND" ("Target " ++ t ++ " not found")),
             [.profilesFetch])) := by
  intro env dateOk urlOk args hschema hconf
  constructor
  · intro hall
    rw [handlePostPublish, if_pos hschema, if_neg hconf,
      resolveTargets_ok_of_all_found env.profiles args.targets hall]
  · intro hmiss
    obtain ⟨t, ht, herr⟩ := resolveTargets_error_of_missing env.profiles args.targets hmiss
    exact ⟨t, ht, by rw [handlePostPublish, if_pos hschema, if_neg hconf, herr]⟩

/-- C7 amended-theorem witness: resolving `["p1"]` against a profile list
that knows `p1` substitutes `twitter` and issues exactly one create call. -/
theorem publish_targets_all_or_nothing_witness :
    handlePostPublish
      ⟨[⟨"p1", "Main", "twitter", "g1"⟩], ⟨"j2", "pending", none, none, ""⟩, ""⟩
      (fun _ => true) (fun _ => true)
      ⟨"hi", ["p1"], none, none, none, none⟩ =
      (.ok (.created "j2" "pending" ""),
       [.profilesFetch,
        .createPost ⟨"hi", ["twitter"], none, none,
          chosenIdempotencyKey ⟨"hi", ["p1"], none, none, none, none⟩⟩]) := by
  have h := (publish_targets_all_or_nothing
    ⟨[⟨"p1", "Main", "twitter", "g1"⟩], ⟨"j2", "pending", none, none, ""⟩, ""⟩
    (fun _ => true) (fun _ => true)
    ⟨"hi", ["p1"], none, none, none, none⟩ (by decide) (by decide)).1 (by decide)
  exact h

/-- C8 counterexample: retrying a job whose platforms are all `published`
fails with code `VALIDATION_ERROR` (message "No failed platforms to
retry"), not with a `NoFailedPlatforms` code — the taxonomy has none. -/
theorem retry_no_failed_code_counterexample :
    handlePostRetry
      ⟨⟨"Hello", "processed", none, some [⟨"twitter", "published"⟩]⟩, [],
        ⟨"j2", "pending", none, none, ""⟩⟩
      ⟨"j1", none⟩ =
      (.error ⟨"VALIDATION_ERROR", "No failed platforms to retry"⟩, [.getPost "j1"]) ∧
    ("VALIDATION_ERROR" : String) ≠ "NO_FAILED_PLATFORMS" ∧
    "NO_FAILED_PLATFORMS" ∉ errorCodes := by
  exact ⟨rfl, by decide, by decide⟩

/-- C8 (amended): whenever the set of failed platform outcomes —
intersected with the caller's filter when one is given — is empty, the
retry call fails with error code `VALIDATION_ERROR` and message "No failed
platforms to retry" (the taxonomy defines no `NoFailedPlatforms` code),
after only the status fetch: no create-post call is issued, and the
original job is only read, never mutated. -/
theorem retry_without_failed_platforms_fails :
    (∀ (env : RetryEnv) (args : RetryArgs),
      args.jobId ≠ "" →
      retryFailedPlatforms env args = [] →
      handlePostRetry env args =
        (.error (createError "VALIDATION_ERROR" "No failed platforms to retry"),
         [.getPost args.jobId])) ∧
    "NO_FAILED_PLATFORMS" ∉ errorCodes := by
  refine ⟨fun env args hjob hempty => ?_, by decide⟩
  rw [handlePostRetry, if_neg hjob]
  simp only [hempty, List.length_nil, if_pos]

/-- C8 amended-theorem witness: a filter that matches none of the failed
platforms empties the selection and the call fails before any create. -/
theorem retry_without_failed_platforms_fails_witness :
    handlePostRetry
      ⟨⟨"Hello", "processed", none, some [⟨"twitter", "failed"⟩]⟩, [],
        ⟨"j2", "pending", none, none, ""⟩⟩
      ⟨"j1", some ["linkedin"]⟩ =
      (.error (createError "VALIDATION_ERROR" "No failed platforms to retry"),
       [.getPost "j1"]) :=
  retry_without_failed_platforms_fails.1
    ⟨⟨"Hello", "processed", none, some [⟨"twitter", "failed"⟩]⟩, [],
      ⟨"j2", "pending", none, none, ""⟩⟩
    ⟨"j1", some ["linkedin"]⟩ (by decide) (by decide)

/-- C10 counterexample: a confirmation call whose input fails validation
(empty content) returns a `VALIDATION_ERROR`, not a summary — though still
with no upstream call. -/
theorem confirmation_invalid_input_counterexample :
    handlePostPublish ⟨[], ⟨"j2", "pending", none, none, ""⟩, "m"⟩
      (fun _ => true) (fun _ => true)
      ⟨"", ["p1"], none, none, none, some true⟩ =
      (.error ⟨"VALIDATION_ERROR", "Invalid input: m"⟩, []) := by
  exact rfl

/-- C10 (amended): a publish call with `require_confirmation` makes no
upstream call whatsoever (the trace is empty even for invalid input, so
no target resolution and no create-post request happen), and when the
input passes validation it returns exactly the summary: targets, content
preview truncated at 100 UTF-16 units, media count and schedule time.
Idempotency-key derivation is pure and unreached on this path. -/
theorem confirmation_returns_summary_only :
    ∀ (env : PublishEnv) (dateOk urlOk : String → Bool) (args : PublishArgs),
      args.requireConfirmation = some true →
      (handlePostPublish env dateOk urlOk args).2 = [] ∧
      (publishSchemaOk dateOk urlOk args = true →
        handlePostPublish env dateOk urlOk args =
          (.ok (.confirmationSummary args.targets (contentPreview args.content)
            ((args.media.getD []).length) args.schedule), [])) := by
  intro env dateOk urlOk args hconf
  constructor
  · rw [handlePostPublish]
    cases hs : publishSchemaOk dateOk urlOk args with
    | false => simp [hs]
    | true => simp [hs, hconf]
  · intro hs
    rw [handlePostPublish, if_pos hs, if_pos hconf]

/-- C10 amended-theorem witness at a concrete valid confirmation call. -/
theorem confirmation_returns_summary_only_witness :
    handlePostPublish ⟨[], ⟨"j2", "pending", none, none, ""⟩, ""⟩
      (fun _ => true) (fun _ => true)
      ⟨"Hello", ["p1"], none, none, none, some true⟩ =
      (.ok (.confirmationSummary ["p1"] (contentPreview "Hello") 0 none), []) :=
  (confirmation_returns_summary_only ⟨[], ⟨"j2", "pending", none, none, ""⟩, ""⟩
    (fun _ => true) (fun _ => true)
    ⟨"Hello", ["p1"], none, none, none, some true⟩ rfl).2 (by decide)
